import Mathlib

/-!
Verification of the hybrid rocket motor firing simulator (`motor_sim.py`).

The simulator is a fixed-time-step loop advancing a tank-blowdown /
combustion / nozzle state.  The loop body and all constants below are a
shallow embedding of `motor_sim.py`; machine floats are idealised as
rationals (`ℚ`), so every definition is executable.

The script imports a module `hybrid_functions` (as `motor`) that is not part
of the repository snapshot: the functions `thermophys`, `Nikuradse`,
`ball_valve_K`, `dyer_injector`, `vapour_injector`, `Z2_solve`,
`c_star_lookup`, `gamma_lookup`, `mach_exit`, the `Pipe` area formula, the
compressibility-table interpolation and the float `pow`/`sqrt` primitives
are therefore modelled from the spec as an abstract environment `Env`
(structure fields), carrying exactly the contracts the spec states for them
(both injector models return a non-negative mass-flow rate, spec 4.4).
-/

namespace MotorSim

/-- Modelled from the spec: the `Pipe` area formula of the missing
`hybrid_functions` module, "derived area = π·d²/4" (spec 2/4.6); `pi` is
supplied by the environment since floats are idealised as rationals. -/
def area (pi d : ℚ) : ℚ := pi * d ^ 2 / 4

/-- `VOL_TANK = 0.047 ** 2 * 3.14 * 0.7` (motor_sim.py line 33). -/
def VOL_TANK : ℚ := 0.047 ^ 2 * 3.14 * 0.7

/-- `HEAD_SPACE = 0.15` : initial vapour phase proportion. -/
def HEAD_SPACE : ℚ := 0.15

/-- `NUM_INJ = 12` : number of primary injector orifices. -/
def NUM_INJ : ℚ := 12

/-- `DIA_INJ = 0.0015` : diameter of primary injector orifices (m). -/
def DIA_INJ : ℚ := 0.0015

/-- `DIA_PORT = 0.04` : diameter of fuel port (m). -/
def DIA_PORT : ℚ := 0.04

/-- `LENGTH_PORT = 0.7` : length of fuel port (m). -/
def LENGTH_PORT : ℚ := 0.7

/-- `DIA_FUEL = 0.07` : outside diameter of fuel grain (m). -/
def DIA_FUEL : ℚ := 0.07

/-- `C_STAR_EFFICIENCY = 0.95`. -/
def C_STAR_EFFICIENCY : ℚ := 0.95

/-- `DIA_THROAT = 0.02` : nozzle throat diameter (m). -/
def DIA_THROAT : ℚ := 0.02

/-- `NOZZLE_EFFICIENCY = 0.97`. -/
def NOZZLE_EFFICIENCY : ℚ := 0.97

/-- Source name `NOZZLE_AREA_RATIO = 3.5` : ratio of nozzle exit area to
throat area. -/
def NOZZLE_AREA_RAT : ℚ := 3.5

/-- `DIA_FEED = 0.01` : feed pipe diameter (m). -/
def DIA_FEED : ℚ := 0.01

/-- `LENGTH_FEED = 0.2` : feed pipe length (m). -/
def LENGTH_FEED : ℚ := 0.2

/-- `VALVE_MODEL_TYPE = 'ball'`. -/
def VALVE_MODEL_TYPE : String := "ball"

/-- `KV_VALVE = 5`. -/
def KV_VALVE : ℚ := 5

/-- `DIA_VALVE = 0.015`. -/
def DIA_VALVE : ℚ := 0.015

/-- `LENGTH_VALVE = 0.08`. -/
def LENGTH_VALVE : ℚ := 0.08

/-- `DENSITY_FUEL = 1000` : solid fuel density (kg m^-3). -/
def DENSITY_FUEL : ℚ := 1000

/-- `REG_COEFF = 1.157E-4` : regression rate coefficient. -/
def REG_COEFF : ℚ := 1.157e-4

/-- `REG_EXP = 0.331` : regression rate exponent. -/
def REG_EXP : ℚ := 0.331

/-- `PRES_EXTERNAL = 101325` : external atmospheric pressure (Pa). -/
def PRES_EXTERNAL : ℚ := 101325

/-- `temp = 25 + 273.15` : initial tank temperature (K). -/
def TEMP_INIT : ℚ := 25 + 273.15

/-- `dt = 1e-2` : time step (s). -/
def dt : ℚ := 1e-2

/-- `gamma_N2O = 1.31`. -/
def gamma_N2O : ℚ := 1.31

/-- Tank phase (`blowdown_type` in the source: `'liquid'` / `'vapour'`). -/
inductive Phase where
  | liquid
  | vapour
  deriving DecidableEq, Repr

/-- Result tuple of `motor.thermophys(temp)`, in source order:
`lden, vden, hl, hg, cp, vap_pres, ldynvis`. -/
structure Thermo where
  lden : ℚ
  vden : ℚ
  hl : ℚ
  hg : ℚ
  cp : ℚ
  vap_pres : ℚ
  ldynvis : ℚ

/-- The mutable simulation state of the loop, one field per script
variable that survives from one tick to the next. The `_ld` fields are the
phase-transition snapshot ("tank parameters at liquid depletion",
lines 220-224); before the transition they hold their initial value 0. -/
structure State where
  time : ℚ
  mdotox : ℚ
  vapz_lag : ℚ
  blowdown : Phase
  temp : ℚ
  lden : ℚ
  vden : ℚ
  hl : ℚ
  hg : ℚ
  cp : ℚ
  vap_pres : ℚ
  ldynvis : ℚ
  hv : ℚ
  pres_cham : ℚ
  lmass : ℚ
  vmass : ℚ
  tmass : ℚ
  fuel_mass : ℚ
  port_d : ℚ
  vmass_ld : ℚ
  temp_ld : ℚ
  vden_ld : ℚ
  vap_pres_ld : ℚ
  Z_ld : ℚ

/-- One per-tick record: the values appended to the twenty parallel data
lists at lines 306-327, gathered into one immutable tuple (the spec's
`StepRecord`).  `areaRat` is the source's `area_ratio_data` entry and
`oxfuel` the `of_data` entry. -/
structure Record where
  time : ℚ
  vap_pres : ℚ
  pres_cham : ℚ
  manifold_pres : ℚ
  thrust : ℚ
  gox : ℚ
  prop_mass : ℚ
  gamma : ℚ
  throat_d : ℚ
  nozzle_eff : ℚ
  pres_exit : ℚ
  areaRat : ℚ
  oxfuel : ℚ
  rdot : ℚ
  port_d : ℚ
  vmass : ℚ
  vden : ℚ
  lden : ℚ
  lmass : ℚ
  fuel_mass : ℚ

/-- Modelled from the spec: the functions of the missing
`hybrid_functions` module plus the float `pow`/`sqrt`/`pi` primitives and
the table interpolations, abstracted as an environment.  `Z2_solve`
returns `none` where the source returns the string
`'numerical instability'`.  The two proof fields are the spec's 4.4
contract: "both return a non-negative mass flow rate". -/
structure Env where
  thermophys : ℚ → Thermo
  Nikuradse : ℚ → ℚ
  ball_valve_K : ℚ → ℚ → ℚ → ℚ → ℚ
  dyer_injector : ℚ → ℚ → ℚ → ℚ → ℚ → ℚ → ℚ → ℚ
  vapour_injector : ℚ → ℚ → ℚ → ℚ
  Z2_solve : ℚ → ℚ → ℚ → ℚ → ℚ → Option ℚ
  interpZ : ℚ → ℚ
  c_star_lookup : ℚ → ℚ → ℚ
  gamma_lookup : ℚ → ℚ → ℚ
  mach_exit : ℚ → ℚ → ℚ
  rpow : ℚ → ℚ → ℚ
  sqrt : ℚ → ℚ
  pi : ℚ
  dyer_nonneg : ∀ a b c d f g h, 0 ≤ dyer_injector a b c d f g h
  vapour_nonneg : ∀ a b c, 0 ≤ vapour_injector a b c

/-- Feed-system section, lines 159-182: manifold pressure from the tank
vapour pressure minus entry, valve and viscous losses, computed only when
`mdotox > 0 and lmass > 0` (both from the previous tick), else the vapour
pressure directly. -/
def manifoldPres (e : Env) (s : State) : ℚ :=
  if 0 < s.mdotox ∧ 0 < s.lmass then
    let flow_speed := s.mdotox / (s.lden * area e.pi DIA_FEED)
    let entry_loss := 0.5 * s.lden * flow_speed ^ 2
    let reynolds := s.lden * flow_speed * DIA_FEED / s.ldynvis
    let f := e.Nikuradse reynolds
    let vis_pdrop := 0.25 * f * s.lden * flow_speed ^ 2 * LENGTH_FEED / DIA_FEED
    let valve_loss :=
      if VALVE_MODEL_TYPE = "ball" then
        0.5 * s.lden * flow_speed * flow_speed *
          e.ball_valve_K reynolds DIA_FEED DIA_VALVE LENGTH_VALVE
      else
        1.296e9 * s.mdotox * s.mdotox / (s.lden * KV_VALVE * KV_VALVE)
    s.vap_pres - entry_loss - valve_loss - vis_pdrop
  else s.vap_pres

/-- `inj_pdrop = manifold_pres - pres_cham` (line 186). -/
def injPdrop (e : Env) (s : State) : ℚ := manifoldPres e s - s.pres_cham

/-- Liquid-phase blowdown, lines 194-237.  Takes the tick's manifold
pressure and injector pressure drop; returns the state after the tank
update (either the continuing liquid stage or the transition to vapour
blowdown with the liquid-depletion snapshot captured). -/
def liquidUpdate (e : Env) (s : State) (manifold pdrop : ℚ) : State :=
  let mdotox := NUM_INJ *
    e.dyer_injector s.pres_cham DIA_INJ s.lden pdrop s.hl manifold s.vap_pres
  let tmass := s.tmass - mdotox * dt
  let lmass_pre_vap := s.lmass - mdotox * dt
  let lmass_post_vap := (s.vden * VOL_TANK - tmass) / (s.vden / s.lden - 1)
  if lmass_pre_vap < lmass_post_vap then
    { s with mdotox := mdotox, tmass := tmass,
             blowdown := Phase.vapour, lmass := 0, vmass := tmass,
             vmass_ld := tmass, temp_ld := s.temp, vden_ld := s.vden,
             vap_pres_ld := s.vap_pres,
             Z_ld := e.interpZ (e.thermophys s.temp).vap_pres }
  else
    let lmass := lmass_post_vap
    let vapz := lmass_pre_vap - lmass
    let vapz_lag := dt / 0.15 * (vapz - s.vapz_lag) + s.vapz_lag
    let vmass := tmass - lmass
    let temp := s.temp - vapz_lag * s.hv / lmass / s.cp
    let th := e.thermophys temp
    { s with mdotox := mdotox, tmass := tmass, lmass := lmass,
             vmass := vmass, vapz_lag := vapz_lag, temp := temp,
             lden := th.lden, vden := th.vden, hl := th.hl, hg := th.hg,
             cp := th.cp, vap_pres := th.vap_pres, ldynvis := th.ldynvis,
             hv := th.hg - th.hl }

/-- Isentropic temperature relation, line 255:
`temp = temp_ld * (Z2*vmass/(Z_ld*vmass_ld))**(gamma-1)`. -/
def isenTemp (e : Env) (temp_ld Z_ld vmass_ld vmass Z2 : ℚ) : ℚ :=
  temp_ld * e.rpow (Z2 * vmass / (Z_ld * vmass_ld)) (gamma_N2O - 1)

/-- Isentropic pressure relation, line 256:
`vap_pres = vap_pres_ld * (temp/temp_ld)**(gamma/(gamma-1))`. -/
def isenPres (e : Env) (vap_pres_ld temp_ld temp : ℚ) : ℚ :=
  vap_pres_ld * e.rpow (temp / temp_ld) (gamma_N2O / (gamma_N2O - 1))

/-- Isentropic density relation, line 257:
`vden = vden_ld * (temp/temp_ld)**(1/(gamma-1))`. -/
def isenDen (e : Env) (vden_ld temp_ld temp : ℚ) : ℚ :=
  vden_ld * e.rpow (temp / temp_ld) (1 / (gamma_N2O - 1))

/-- Vapour-phase blowdown, lines 239-257: injector outflow, the
compressibility solve against the liquid-depletion snapshot (`none` is the
source's `'numerical instability'` exit), then the isentropic update. -/
def vapourUpdate (e : Env) (s : State) (pdrop : ℚ) : Option State :=
  let mdotox := NUM_INJ * e.vapour_injector DIA_INJ s.vden pdrop
  let vmass := s.vmass - dt * mdotox
  match e.Z2_solve s.temp_ld s.Z_ld s.vmass_ld vmass gamma_N2O with
  | none => none
  | some Z2 =>
    let temp := isenTemp e s.temp_ld s.Z_ld s.vmass_ld vmass Z2
    some { s with mdotox := mdotox, vmass := vmass, temp := temp,
                  vap_pres := isenPres e s.vap_pres_ld s.temp_ld temp,
                  vden := isenDen e s.vden_ld s.temp_ld temp }

/-- The tank-emptying dispatch on `blowdown_type` (lines 192-257). -/
def blowdownUpd (e : Env) (s : State) : Option State :=
  match s.blowdown with
  | Phase.liquid => some (liquidUpdate e s (manifoldPres e s) (injPdrop e s))
  | Phase.vapour => vapourUpdate e s (injPdrop e s)

/-- Regression rate, line 265: `rdot = REG_COEFF * (mdotox/port.A)**REG_EXP`
(with the pre-growth port area). -/
def rdotCalc (e : Env) (s : State) : ℚ :=
  REG_COEFF * e.rpow (s.mdotox / area e.pi s.port_d) REG_EXP

/-- Fuel mass flow, line 266:
`mdotfuel = rdot * DENSITY_FUEL * pi * port.d * port.l`. -/
def mdotfuelCalc (e : Env) (s : State) : ℚ :=
  rdotCalc e s * DENSITY_FUEL * e.pi * s.port_d * LENGTH_PORT

/-- Momentum term of the thrust equation (lines 298-301):
`throat.A * pres_cham * sqrt(2γ²/(γ-1) * (2/(γ+1))**((γ+1)/(γ-1)) *
(1 - (pres_exit/pres_cham)**(1-1/γ)))`. -/
def momentumTerm (e : Env) (gamma pres_cham pres_exit : ℚ) : ℚ :=
  area e.pi DIA_THROAT * pres_cham * e.sqrt
    (2 * gamma ^ 2 / (gamma - 1) *
      e.rpow (2 / (gamma + 1)) ((gamma + 1) / (gamma - 1)) *
      (1 - e.rpow (pres_exit / pres_cham) (1 - 1 / gamma)))

/-- Pressure-differential term of the thrust equation (line 302):
`(pres_exit - PRES_EXTERNAL) * throat.A * NOZZLE_AREA_RATIO`. -/
def pdiffTerm (e : Env) (pres_exit : ℚ) : ℚ :=
  (pres_exit - PRES_EXTERNAL) * area e.pi DIA_THROAT * NOZZLE_AREA_RAT

/-- Port diameter after regression, line 268: `port.d += 2*rdot*dt`. -/
def portDNew (e : Env) (s : State) : ℚ := s.port_d + 2 * rdotCalc e s * dt

/-- Fuel mass after regression, line 274:
`fuel_mass = (fuel.A - port.A) * port.l * DENSITY_FUEL`. -/
def fuelMassNew (e : Env) (s : State) : ℚ :=
  (area e.pi DIA_FUEL - area e.pi (portDNew e s)) * LENGTH_PORT *
    DENSITY_FUEL

/-- Characteristic velocity, lines 279-280: looked up at the chamber
pressure still held from the previous tick and the current O/F, then
scaled by `C_STAR_EFFICIENCY`. -/
def cStarNew (e : Env) (s : State) : ℚ :=
  e.c_star_lookup s.pres_cham (s.mdotox / mdotfuelCalc e s) *
    C_STAR_EFFICIENCY

/-- Chamber-pressure update, line 283:
`pres_cham = (mdotox + mdotfuel) * c_star / throat.A`. -/
def presChamNew (e : Env) (s : State) : ℚ :=
  (s.mdotox + mdotfuelCalc e s) * cStarNew e s / area e.pi DIA_THROAT

/-- Ratio of specific heats, line 286: looked up at the just-updated
chamber pressure and the current O/F. -/
def gammaNew (e : Env) (s : State) : ℚ :=
  e.gamma_lookup (presChamNew e s) (s.mdotox / mdotfuelCalc e s)

/-- Nozzle exit static pressure, lines 291-293. -/
def presExitNew (e : Env) (s : State) : ℚ :=
  presChamNew e s *
    e.rpow
      (1 + (gammaNew e s - 1) * e.mach_exit (gammaNew e s) NOZZLE_AREA_RAT *
        e.mach_exit (gammaNew e s) NOZZLE_AREA_RAT * 0.5)
      (-gammaNew e s / (gammaNew e s - 1))

/-- Thrust, lines 297-302: `NOZZLE_EFFICIENCY` multiplies the
parenthesised sum of the momentum term and the pressure-differential
term. -/
def thrustNew (e : Env) (s : State) : ℚ :=
  NOZZLE_EFFICIENCY *
    (momentumTerm e (gammaNew e s) (presChamNew e s) (presExitNew e s) +
      pdiffTerm e (presExitNew e s))

/-- State after the regression/combustion/nozzle section: only the port
diameter, fuel mass and chamber pressure change there. -/
def combPost (e : Env) (s : State) : State :=
  { s with port_d := portDNew e s, fuel_mass := fuelMassNew e s,
           pres_cham := presChamNew e s }

/-- The record appended to the twenty data lists, lines 306-327 (the mass
flux `gox` and the port diameter are appended after the port growth of
line 268, hence use `portDNew`). -/
def combRecord (e : Env) (s : State) (manifold : ℚ) : Record :=
  { time := s.time, vap_pres := s.vap_pres, pres_cham := presChamNew e s,
    manifold_pres := manifold, thrust := thrustNew e s,
    gox := s.mdotox / area e.pi (portDNew e s),
    prop_mass := s.lmass + s.vmass + fuelMassNew e s,
    gamma := gammaNew e s, throat_d := DIA_THROAT,
    nozzle_eff := NOZZLE_EFFICIENCY, pres_exit := presExitNew e s,
    areaRat := NOZZLE_AREA_RAT, oxfuel := s.mdotox / mdotfuelCalc e s,
    rdot := rdotCalc e s, port_d := portDNew e s, vmass := s.vmass,
    vden := s.vden, lden := s.lden, lmass := s.lmass,
    fuel_mass := fuelMassNew e s }

/-- Regression, burnout check (line 270: `if port.d > fuel.d: break`),
combustion lookup, chamber-pressure update, nozzle performance and the
data-list append, lines 264-327.  `none` is the `fuel depleted` break. -/
def combustionUpdate (e : Env) (s : State) (manifold : ℚ) :
    Option (State × Record) :=
  if DIA_FUEL < portDNew e s then none
  else some (combPost e s, combRecord e s manifold)

/-- The ways one loop iteration can `break` (lines 190, 252, 272). -/
inductive StopReason where
  | flowReversal
  | vapourDepleted
  | fuelDepleted
  deriving DecidableEq, Repr

/-- Outcome of one loop iteration: either the next state together with the
appended record, or a `break` with no record appended. -/
inductive StepResult where
  | next (s : State) (r : Record)
  | halt (why : StopReason)

/-- One iteration of the `while True` loop (lines 155-327): increment
time, feed losses, the flow-reversal check, tank blowdown, fuel
regression/burnout, combustion lookups, nozzle performance, record. -/
def step (e : Env) (s : State) : StepResult :=
  let time := s.time + dt
  if injPdrop e s < 0.15 ∧ 1 / 2 < time then StepResult.halt StopReason.flowReversal
  else
    match blowdownUpd e s with
    | none => StepResult.halt StopReason.vapourDepleted
    | some s1 =>
      match combustionUpdate e { s1 with time := time } (manifoldPres e s) with
      | none => StepResult.halt StopReason.fuelDepleted
      | some (s2, r) => StepResult.next s2 r

/-- Run at most `n` iterations from `s`, collecting the appended records;
a `break` ends the run with the records gathered so far intact. -/
def runAux (e : Env) (s : State) : Nat → List Record
  | 0 => []
  | n + 1 =>
    match step e s with
    | StepResult.halt _ => []
    | StepResult.next s' r => r :: runAux e s' n

/-- The halt reason of an iteration outcome, if it was a `break`. -/
def stopReasonOf : StepResult → Option StopReason
  | StepResult.halt why => some why
  | StepResult.next _ _ => none

/-- The post-tick state of an iteration outcome, if the tick completed. -/
def nextState : StepResult → Option State
  | StepResult.next s _ => some s
  | StepResult.halt _ => none

/-- The record appended by an iteration, if the tick completed. -/
def nextRecord : StepResult → Option Record
  | StepResult.next _ r => some r
  | StepResult.halt _ => none

/-- Initial values, lines 96-114:  `d0` is the configured `DIA_PORT`
(spec 6: the input parameters are read from an external configuration;
the repository's default is `DIA_PORT = 0.04`). -/
def initState (e : Env) (d0 : ℚ) : State :=
  let th := e.thermophys TEMP_INIT
  { time := 0, mdotox := 0, vapz_lag := 0, blowdown := Phase.liquid,
    temp := TEMP_INIT, lden := th.lden, vden := th.vden, hl := th.hl,
    hg := th.hg, cp := th.cp, vap_pres := th.vap_pres,
    ldynvis := th.ldynvis, hv := th.hg - th.hl,
    pres_cham := PRES_EXTERNAL,
    lmass := VOL_TANK * (1 - HEAD_SPACE) * th.lden,
    vmass := VOL_TANK * HEAD_SPACE * th.vden,
    tmass := VOL_TANK * (1 - HEAD_SPACE) * th.lden +
      VOL_TANK * HEAD_SPACE * th.vden,
    fuel_mass := (area e.pi DIA_FUEL - area e.pi d0) * LENGTH_PORT *
      DENSITY_FUEL,
    port_d := d0, vmass_ld := 0, temp_ld := 0, vden_ld := 0,
    vap_pres_ld := 0, Z_ld := 0 }

/-- A fixed thermophysical sample used by the concrete test environments. -/
def trivThermo : Thermo :=
  { lden := 800, vden := 100, hl := 0, hg := 1, cp := 1, vap_pres := 11,
    ldynvis := 1 }

/-- A concrete environment instantiating the modelled `hybrid_functions`
interface: constant property tables, a closed injector (zero flow) and
trivial `pow`/`sqrt`.  Used to evaluate the loop on concrete inputs. -/
def trivEnv : Env :=
  { thermophys := fun _ => trivThermo,
    Nikuradse := fun x => x,
    ball_valve_K := fun _ _ _ _ => 0,
    dyer_injector := fun _ _ _ _ _ _ _ => 0,
    vapour_injector := fun _ _ _ => 0,
    Z2_solve := fun _ _ _ _ _ => some 1,
    interpZ := fun x => x,
    c_star_lookup := fun _ _ => 1,
    gamma_lookup := fun _ _ => 2,
    mach_exit := fun _ _ => 1,
    rpow := fun _ _ => 1,
    sqrt := fun x => x,
    pi := 3.14,
    dyer_nonneg := fun _ _ _ _ _ _ _ => le_refl 0,
    vapour_nonneg := fun _ _ _ => le_refl 0 }

/-- Like `trivEnv` but with a unit per-orifice liquid injector flow and a
1000 m/s characteristic-velocity table. -/
def flowEnv : Env :=
  { trivEnv with
    dyer_injector := fun _ _ _ _ _ _ _ => 1,
    dyer_nonneg := fun _ _ _ _ _ _ _ => zero_le_one,
    c_star_lookup := fun _ _ => 1000 }

/-- A concrete mid-burn liquid-phase state used by the concrete tests. -/
def baseState : State :=
  { time := 0, mdotox := 0, vapz_lag := 0, blowdown := Phase.liquid,
    temp := 300, lden := 2, vden := 1, hl := 0, hg := 1, cp := 1,
    vap_pres := 11, ldynvis := 1, hv := 1, pres_cham := 10, lmass := 10,
    vmass := 0, tmass := 10, fuel_mass := 1, port_d := DIA_PORT,
    vmass_ld := 0, temp_ld := 0, vden_ld := 0, vap_pres_ld := 0,
    Z_ld := 0 }

/-- Modelled from the spec's words, for comparison with the source
formula `thrustNew`: "thrust from the two-term rocket thrust equation
(momentum term plus pressure-differential term), scaled by nozzle
efficiency on the momentum term only" (spec 4.8). -/
def thrustSpecMomOnly (e : Env) (gamma pres_cham pres_exit : ℚ) : ℚ :=
  NOZZLE_EFFICIENCY * momentumTerm e gamma pres_cham pres_exit +
    pdiffTerm e pres_exit

/-- Side condition for the excessive-flux scenario: the tick's blowdown
step succeeds, the resulting oxidizer mass flux `mdotox / port.A`
(line 260) exceeds the 600 threshold, and the burnout check passes. -/
def fluxTickCheck (e : Env) (s : State) : Bool :=
  match blowdownUpd e s with
  | none => false
  | some s1 =>
    decide (600 < s1.mdotox / area e.pi s1.port_d) &&
      decide (¬DIA_FUEL < portDNew e s1)

/-- Side condition for the grain-burnout scenario: the tick's blowdown
step succeeds and the regression rate of the tick is positive (true for
the real power-law correlation whenever the injector delivers flow). -/
def burnoutCheck (e : Env) (s : State) : Bool :=
  match blowdownUpd e s with
  | none => false
  | some s1 => decide (0 < rdotCalc e s1)

/-- Concrete tick for the flow-reversal counterexample: past the startup
transient, injector pressure drop 1 Pa against a 10 Pa chamber. -/
def c1State : State := { baseState with time := 1 }

/-- Concrete tick on which the flow-reversal break fires. -/
def revState : State := { baseState with time := 1, vap_pres := 101 / 10 }

/-- Concrete liquid-phase tick with plenty of oxidizer on board. -/
def c3State : State :=
  { baseState with lmass := 100, vmass := 1, tmass := 101 }

/-- Concrete tick just before liquid depletion: the equilibrium liquid
mass of line 209 comes out negative here. -/
def c6State : State :=
  { baseState with lmass := 3 / 1000, vmass := 1 / 1000, tmass := 4 / 1000 }

/-- Concrete vapour-phase tick with the liquid-depletion snapshot set. -/
def c4State : State :=
  { baseState with
    blowdown := Phase.vapour, lmass := 0, vmass := 5,
    tmass := 5, vmass_ld := 5, temp_ld := 300, vden_ld := 1,
    vap_pres_ld := 11, Z_ld := 1 }

theorem step_eq_of_rev (e : Env) (s : State)
    (h : injPdrop e s < 0.15 ∧ 1 / 2 < s.time + dt) :
    step e s = StepResult.halt StopReason.flowReversal := by
  simp only [step]
  rw [if_pos h]

theorem step_eq_of_not_rev (e : Env) (s : State)
    (h : ¬(injPdrop e s < 0.15 ∧ 1 / 2 < s.time + dt)) :
    step e s =
      match blowdownUpd e s with
      | none => StepResult.halt StopReason.vapourDepleted
      | some s1 =>
        match combustionUpdate e { s1 with time := s.time + dt }
            (manifoldPres e s) with
        | none => StepResult.halt StopReason.fuelDepleted
        | some (s2, r) => StepResult.next s2 r := by
  simp only [step]
  rw [if_neg h]

theorem step_rev_iff (e : Env) (s : State) :
    stopReasonOf (step e s) = some StopReason.flowReversal ↔
      injPdrop e s < 0.15 ∧ 1 / 2 < s.time + dt := by
  constructor
  · intro h
    by_contra hc
    rw [step_eq_of_not_rev e s hc] at h
    rcases hb : blowdownUpd e s with _ | s1
    · simp only [hb] at h
      simp [stopReasonOf] at h
    · simp only [hb] at h
      rcases hcu : combustionUpdate e { s1 with time := s.time + dt }
          (manifoldPres e s) with _ | p
      · simp only [hcu] at h
        simp [stopReasonOf] at h
      · obtain ⟨s2, r⟩ := p
        simp only [hcu] at h
        simp [stopReasonOf] at h
  · intro h
    rw [step_eq_of_rev e s h]
    rfl

theorem blowdown_keeps (e : Env) (s : State) {s1 : State}
    (h : blowdownUpd e s = some s1) :
    s1.pres_cham = s.pres_cham ∧ s1.port_d = s.port_d ∧
      s1.time = s.time := by
  unfold blowdownUpd at h
  cases hp : s.blowdown
  case liquid =>
    simp only [hp] at h
    obtain rfl := Option.some.inj h
    simp only [liquidUpdate]
    split
    · exact ⟨rfl, rfl, rfl⟩
    · exact ⟨rfl, rfl, rfl⟩
  case vapour =>
    simp only [hp, vapourUpdate] at h
    rcases hz : e.Z2_solve s.temp_ld s.Z_ld s.vmass_ld
        (s.vmass - dt * (NUM_INJ * e.vapour_injector DIA_INJ s.vden
          (injPdrop e s))) gamma_N2O with _ | Z2
    · simp only [hz] at h
      cases h
    · simp only [hz] at h
      obtain rfl := Option.some.inj h
      exact ⟨rfl, rfl, rfl⟩

theorem portDNew_time (e : Env) (s : State) (t : ℚ) :
    portDNew e { s with time := t } = portDNew e s := rfl

theorem liquidUpdate_mdotox (e : Env) (s : State) (m p : ℚ) :
    (liquidUpdate e s m p).mdotox =
      NUM_INJ * e.dyer_injector s.pres_cham DIA_INJ s.lden p s.hl m
        s.vap_pres := by
  simp only [liquidUpdate]
  split <;> rfl

theorem liquidUpdate_mdotox_nonneg (e : Env) (s : State) (m p : ℚ) :
    0 ≤ (liquidUpdate e s m p).mdotox := by
  rw [liquidUpdate_mdotox]
  exact mul_nonneg (by norm_num [NUM_INJ]) (e.dyer_nonneg _ _ _ _ _ _ _)

theorem liquid_mass_delta (e : Env) (s : State) (m p : ℚ)
    (h : s.tmass = s.lmass + s.vmass) :
    (liquidUpdate e s m p).lmass + (liquidUpdate e s m p).vmass =
      s.lmass + s.vmass - (liquidUpdate e s m p).mdotox * dt := by
  simp only [liquidUpdate]
  split <;> simp <;> linarith

theorem liquidUpdate_tmass_inv (e : Env) (s : State) (m p : ℚ) :
    (liquidUpdate e s m p).tmass =
      (liquidUpdate e s m p).lmass + (liquidUpdate e s m p).vmass := by
  simp only [liquidUpdate]
  split <;> simp

theorem blowdown_mass (e : Env) (s : State) {s1 : State}
    (hb : blowdownUpd e s = some s1)
    (h : s.blowdown = Phase.liquid → s.tmass = s.lmass + s.vmass) :
    s1.lmass + s1.vmass ≤ s.lmass + s.vmass ∧
      (s1.blowdown = Phase.liquid → s1.tmass = s1.lmass + s1.vmass) := by
  unfold blowdownUpd at hb
  cases hp : s.blowdown
  case liquid =>
    simp only [hp] at hb
    obtain rfl := Option.some.inj hb
    have hd := liquid_mass_delta e s (manifoldPres e s) (injPdrop e s) (h hp)
    have hm := liquidUpdate_mdotox_nonneg e s (manifoldPres e s)
      (injPdrop e s)
    have hdt : (0 : ℚ) ≤ (liquidUpdate e s (manifoldPres e s)
        (injPdrop e s)).mdotox * dt :=
      mul_nonneg hm (by norm_num [dt])
    refine ⟨by linarith, fun _ => liquidUpdate_tmass_inv e s _ _⟩
  case vapour =>
    simp only [hp, vapourUpdate] at hb
    rcases hz : e.Z2_solve s.temp_ld s.Z_ld s.vmass_ld
        (s.vmass - dt * (NUM_INJ * e.vapour_injector DIA_INJ s.vden
          (injPdrop e s))) gamma_N2O with _ | Z2
    · simp only [hz] at hb
      cases hb
    · simp only [hz] at hb
      obtain rfl := Option.some.inj hb
      constructor
      · have hm : 0 ≤ NUM_INJ * e.vapour_injector DIA_INJ s.vden
            (injPdrop e s) :=
          mul_nonneg (by norm_num [NUM_INJ]) (e.vapour_nonneg _ _ _)
        have hdt : (0 : ℚ) ≤ dt * (NUM_INJ * e.vapour_injector DIA_INJ
            s.vden (injPdrop e s)) :=
          mul_nonneg (by norm_num [dt]) hm
        show s.lmass + (s.vmass - dt * (NUM_INJ * e.vapour_injector DIA_INJ
          s.vden (injPdrop e s))) ≤ s.lmass + s.vmass
        linarith
      · exact fun h2 => Phase.noConfusion h2

theorem blowdown_vapour_lmass (e : Env) (s : State) {s1 : State}
    (hb : blowdownUpd e s = some s1)
    (hinv : s.blowdown = Phase.vapour → s.lmass = 0) :
    s1.blowdown = Phase.vapour → s1.lmass = 0 := by
  unfold blowdownUpd at hb
  cases hp : s.blowdown
  case liquid =>
    simp only [hp] at hb
    obtain rfl := Option.some.inj hb
    simp only [liquidUpdate]
    split
    · intro _
      rfl
    · intro h2
      exact Phase.noConfusion (hp.symm.trans h2)
  case vapour =>
    simp only [hp, vapourUpdate] at hb
    rcases hz : e.Z2_solve s.temp_ld s.Z_ld s.vmass_ld
        (s.vmass - dt * (NUM_INJ * e.vapour_injector DIA_INJ s.vden
          (injPdrop e s))) gamma_N2O with _ | Z2
    · simp only [hz] at hb
      cases hb
    · simp only [hz] at hb
      obtain rfl := Option.some.inj hb
      intro _
      exact hinv hp

/-- C1 (amended): for every tick, the run terminates via the flow-reversal
path iff the injector pressure drop is below the absolute threshold of
0.15 Pa while the tick's simulation time exceeds 0.5 s — the source
compares `inj_pdrop` against the constant 0.15, not against 0.15 times the
chamber pressure — and on such a termination no record is appended for the
terminating tick, so the result sequence is truncated at the prior tick. -/
theorem C1_flow_reversal_absolute (e : Env) (s : State) :
    (stopReasonOf (step e s) = some StopReason.flowReversal ↔
      injPdrop e s < 0.15 ∧ 1 / 2 < s.time + dt) ∧
    ∀ n, stopReasonOf (step e s) = some StopReason.flowReversal →
      runAux e s n = [] := by
  refine ⟨step_rev_iff e s, fun n h => ?_⟩
  cases n with
  | zero => rfl
  | succ m =>
    cases hs : step e s with
    | next s2 r =>
      rw [hs] at h
      simp [stopReasonOf] at h
    | halt w => simp only [runAux, hs]

/-- Witness for C1: a concrete tick past the startup transient with an
injector pressure drop of 0.1 Pa fires the flow-reversal exit and the run
from it appends no record. -/
theorem C1_witness : runAux trivEnv revState 5 = [] :=
  (C1_flow_reversal_absolute trivEnv revState).2 5 (by
    rw [step_eq_of_rev trivEnv revState
      ⟨by norm_num [injPdrop, manifoldPres, trivEnv, trivThermo, baseState,
        revState],
       by norm_num [revState, baseState, dt]⟩]
    rfl)

/-- C1 as stated is false: on this concrete tick the simulation time
exceeds 0.5 s and the injector pressure drop (1 Pa) is below 0.15 times
the chamber pressure (10 Pa), yet the run does not terminate via the
flow-reversal path, because the source's threshold is the absolute
constant 0.15. -/
theorem C1_counterexample :
    injPdrop trivEnv c1State < 0.15 * c1State.pres_cham ∧
    1 / 2 < c1State.time + dt ∧
    stopReasonOf (step trivEnv c1State) ≠ some StopReason.flowReversal := by
  refine ⟨?_, ?_, fun hc => ?_⟩
  · norm_num [injPdrop, manifoldPres, trivEnv, trivThermo, baseState,
      c1State]
  · norm_num [c1State, baseState, dt]
  · have h := (step_rev_iff trivEnv c1State).mp hc
    norm_num [injPdrop, manifoldPres, trivEnv, trivThermo, baseState,
      c1State, dt] at h

/-- C2: on every liquid-blowdown tick — the one that triggers the
liquid-to-vapour transition included — the sum of liquid and vapour mass
decreases by exactly `mdotox * dt`, where `mdotox` is the oxidizer mass
flow the tick computed. -/
theorem C2_liquid_mass_balance (e : Env) (s : State) (manifold pdrop : ℚ)
    (h : s.tmass = s.lmass + s.vmass) :
    (liquidUpdate e s manifold pdrop).lmass +
        (liquidUpdate e s manifold pdrop).vmass =
      s.lmass + s.vmass - (liquidUpdate e s manifold pdrop).mdotox * dt := by
  simp only [liquidUpdate]
  split <;> simp <;> linarith

/-- Witness for C2 at a concrete liquid-phase tick. -/
theorem C2_witness :
    (liquidUpdate trivEnv baseState 11 1).lmass +
        (liquidUpdate trivEnv baseState 11 1).vmass =
      baseState.lmass + baseState.vmass -
        (liquidUpdate trivEnv baseState 11 1).mdotox * dt :=
  C2_liquid_mass_balance trivEnv baseState 11 1 (by norm_num [baseState])

/-- C3 (amended): on every recorded tick the appended thrust equals the
nozzle efficiency times the sum of the momentum term and the
pressure-differential term — in the source the `NOZZLE_EFFICIENCY` factor
multiplies the whole parenthesised sum, the pressure-differential term
included. -/
theorem C3_thrust_scaling (e : Env) (s : State) :
    match step e s with
    | StepResult.next _ r =>
        r.thrust = NOZZLE_EFFICIENCY *
          (momentumTerm e r.gamma r.pres_cham r.pres_exit +
            pdiffTerm e r.pres_exit)
    | StepResult.halt _ => True := by
  by_cases hrev : injPdrop e s < 0.15 ∧ 1 / 2 < s.time + dt
  · rw [step_eq_of_rev e s hrev]
    trivial
  · rw [step_eq_of_not_rev e s hrev]
    rcases hb : blowdownUpd e s with _ | s1
    · trivial
    · rcases hcu : combustionUpdate e { s1 with time := s.time + dt }
          (manifoldPres e s) with _ | p
      · simp only [hcu]
      · obtain ⟨s2, r⟩ := p
        simp only [hcu]
        unfold combustionUpdate at hcu
        by_cases hbo : DIA_FUEL < portDNew e { s1 with time := s.time + dt }
        · rw [if_pos hbo] at hcu
          cases hcu
        · rw [if_neg hbo] at hcu
          have h2 := Option.some.inj hcu
          cases h2
          rfl

/-- C3 as stated is false: on this concrete recorded tick the appended
thrust differs from the value obtained by applying the nozzle efficiency
to the momentum term only. -/
theorem C3_counterexample :
    (nextRecord (step flowEnv c3State)).map
        (fun r => r.thrust -
          thrustSpecMomOnly flowEnv r.gamma r.pres_cham r.pres_exit) ≠
      some 0 ∧
    (nextRecord (step flowEnv c3State)).isSome = true := by
  constructor <;>
    norm_num [step, blowdownUpd, liquidUpdate, combustionUpdate,
      manifoldPres, injPdrop, rdotCalc, mdotfuelCalc, momentumTerm,
      pdiffTerm, area, nextRecord, flowEnv, trivEnv, trivThermo, baseState,
      c3State, VOL_TANK, NUM_INJ, dt, DIA_PORT, DIA_FUEL, DIA_THROAT,
      REG_COEFF, REG_EXP, DENSITY_FUEL, LENGTH_PORT, C_STAR_EFFICIENCY,
      NOZZLE_EFFICIENCY, NOZZLE_AREA_RAT, PRES_EXTERNAL, DIA_INJ, isenTemp,
      isenPres, isenDen, gamma_N2O, thrustSpecMomOnly, portDNew,
      fuelMassNew, cStarNew, presChamNew, gammaNew, presExitNew, thrustNew,
      combPost, combRecord, Option.map]

/-- C4: the liquid-depletion snapshot fields are written exactly at the
transition tick with the values the source captures there (lines 220-224);
every vapour-blowdown tick and every combustion section leaves them
untouched; and on a vapour tick the new temperature, vapour pressure and
vapour density are the isentropic pure functions of the frozen snapshot,
the new vapour mass and the solved compressibility factor, so re-deriving
them from the same inputs yields identical values. -/
theorem C4_snapshot_frozen (e : Env) (s : State) (manifold pdrop : ℚ) :
    (match vapourUpdate e s pdrop with
     | none => True
     | some s' =>
       (s'.vmass_ld = s.vmass_ld ∧ s'.temp_ld = s.temp_ld ∧
        s'.vden_ld = s.vden_ld ∧ s'.vap_pres_ld = s.vap_pres_ld ∧
        s'.Z_ld = s.Z_ld) ∧
       match e.Z2_solve s.temp_ld s.Z_ld s.vmass_ld s'.vmass gamma_N2O with
       | none => True
       | some Z2 =>
         s'.temp = isenTemp e s.temp_ld s.Z_ld s.vmass_ld s'.vmass Z2 ∧
         s'.vap_pres = isenPres e s.vap_pres_ld s.temp_ld s'.temp ∧
         s'.vden = isenDen e s.vden_ld s.temp_ld s'.temp) ∧
    (match combustionUpdate e s manifold with
     | none => True
     | some (s2, _) =>
       s2.vmass_ld = s.vmass_ld ∧ s2.temp_ld = s.temp_ld ∧
       s2.vden_ld = s.vden_ld ∧ s2.vap_pres_ld = s.vap_pres_ld ∧
       s2.Z_ld = s.Z_ld) ∧
    (s.blowdown = Phase.liquid →
      (liquidUpdate e s manifold pdrop).blowdown = Phase.vapour →
      (liquidUpdate e s manifold pdrop).vmass_ld =
          s.tmass - (liquidUpdate e s manifold pdrop).mdotox * dt ∧
      (liquidUpdate e s manifold pdrop).temp_ld = s.temp ∧
      (liquidUpdate e s manifold pdrop).vden_ld = s.vden ∧
      (liquidUpdate e s manifold pdrop).vap_pres_ld = s.vap_pres ∧
      (liquidUpdate e s manifold pdrop).Z_ld =
        e.interpZ (e.thermophys s.temp).vap_pres) := by
  refine ⟨?_, ?_, ?_⟩
  · simp only [vapourUpdate]
    rcases hz : e.Z2_solve s.temp_ld s.Z_ld s.vmass_ld
        (s.vmass - dt * (NUM_INJ * e.vapour_injector DIA_INJ s.vden pdrop))
        gamma_N2O with _ | Z2 <;>
      simp [hz]
  · by_cases hbo : DIA_FUEL < portDNew e s <;>
      simp [combustionUpdate, combPost, hbo]
  · intro h1
    simp only [liquidUpdate]
    split
    · exact fun _ => ⟨rfl, rfl, rfl, rfl, rfl⟩
    · exact fun h2 => Phase.noConfusion (h1.symm.trans h2)

/-- Witness for C4: the snapshot assignment at a concrete transitioning
tick. -/
theorem C4_witness :
    (liquidUpdate trivEnv baseState 11 1).vmass_ld =
        baseState.tmass - (liquidUpdate trivEnv baseState 11 1).mdotox * dt ∧
      (liquidUpdate trivEnv baseState 11 1).temp_ld = baseState.temp ∧
      (liquidUpdate trivEnv baseState 11 1).vden_ld = baseState.vden ∧
      (liquidUpdate trivEnv baseState 11 1).vap_pres_ld =
        baseState.vap_pres ∧
      (liquidUpdate trivEnv baseState 11 1).Z_ld =
        trivEnv.interpZ (trivEnv.thermophys baseState.temp).vap_pres :=
  (C4_snapshot_frozen trivEnv baseState 11 1).2.2 rfl
    (by norm_num [liquidUpdate, trivEnv, trivThermo, baseState, VOL_TANK,
      NUM_INJ, dt])

/-- C5: on every recorded tick the appended chamber pressure is the
characteristic velocity looked up at the chamber pressure still held from
the previous tick (the blowdown section never touches `pres_cham`), times
the current tick's total propellant mass flow, divided by the throat
area — the explicit one-step-lagged fixed point of line 283. -/
theorem C5_chamber_pressure_lag (e : Env) (s : State) :
    match blowdownUpd e s, step e s with
    | some s1, StepResult.next s2 r =>
        r.pres_cham = (s1.mdotox + mdotfuelCalc e s1) *
            (e.c_star_lookup s1.pres_cham (s1.mdotox / mdotfuelCalc e s1) *
              C_STAR_EFFICIENCY) / area e.pi DIA_THROAT ∧
        s1.pres_cham = s.pres_cham ∧
        s2.pres_cham = r.pres_cham
    | _, _ => True := by
  by_cases hrev : injPdrop e s < 0.15 ∧ 1 / 2 < s.time + dt
  · rw [step_eq_of_rev e s hrev]
    rcases hb : blowdownUpd e s with _ | s1 <;> simp [hb]
  · rw [step_eq_of_not_rev e s hrev]
    rcases hb : blowdownUpd e s with _ | s1
    · simp [hb]
    · simp only [hb]
      rcases hcu : combustionUpdate e { s1 with time := s.time + dt }
          (manifoldPres e s) with _ | p
      · simp [hcu]
      · obtain ⟨s2, r⟩ := p
        simp only [hcu]
        unfold combustionUpdate at hcu
        by_cases hbo : DIA_FUEL < portDNew e { s1 with time := s.time + dt }
        · rw [if_pos hbo] at hcu
          cases hcu
        · rw [if_neg hbo] at hcu
          have h2 := Option.some.inj hcu
          cases h2
          exact ⟨rfl, (blowdown_keeps e s hb).1, rfl⟩

/-- C6 (amended): given the bookkeeping invariant that in the liquid phase
the stored total `tmass` is the sum of the phase masses, every completed
tick leaves the total tank mass (liquid plus vapour) non-increasing, in
both blowdown states, and preserves the invariant; but non-negativity of
the individual masses is not preserved — the equilibrium liquid-mass
formula of line 209 is not clamped at zero. -/
theorem C6_total_mass_monotone (e : Env) (s : State)
    (h : s.blowdown = Phase.liquid → s.tmass = s.lmass + s.vmass) :
    match step e s with
    | StepResult.next s2 _ =>
        s2.lmass + s2.vmass ≤ s.lmass + s.vmass ∧
        (s2.blowdown = Phase.liquid → s2.tmass = s2.lmass + s2.vmass)
    | StepResult.halt _ => True := by
  by_cases hrev : injPdrop e s < 0.15 ∧ 1 / 2 < s.time + dt
  · rw [step_eq_of_rev e s hrev]
    trivial
  · rw [step_eq_of_not_rev e s hrev]
    rcases hb : blowdownUpd e s with _ | s1
    · simp [hb]
    · simp only [hb]
      rcases hcu : combustionUpdate e { s1 with time := s.time + dt }
          (manifoldPres e s) with _ | p
      · simp [hcu]
      · obtain ⟨s2, r⟩ := p
        simp only [hcu]
        unfold combustionUpdate at hcu
        by_cases hbo : DIA_FUEL < portDNew e { s1 with time := s.time + dt }
        · rw [if_pos hbo] at hcu
          cases hcu
        · rw [if_neg hbo] at hcu
          have h2 := Option.some.inj hcu
          cases h2
          exact @blowdown_mass e s s1 hb h

/-- Witness for C6 at a concrete liquid-phase tick. -/
theorem C6_witness :
    match step trivEnv baseState with
    | StepResult.next s2 _ =>
        s2.lmass + s2.vmass ≤ baseState.lmass + baseState.vmass ∧
        (s2.blowdown = Phase.liquid → s2.tmass = s2.lmass + s2.vmass)
    | StepResult.halt _ => True :=
  C6_total_mass_monotone trivEnv baseState (fun _ => by norm_num [baseState])

/-- C6 as stated is false: this concrete liquid-blowdown tick starts from
non-negative masses with a consistent total, completes (its record is
appended), and leaves a negative liquid mass, because the equilibrium
liquid mass of line 209 is not clamped at zero. -/
theorem C6_counterexample :
    (0 ≤ c6State.lmass ∧ 0 ≤ c6State.vmass ∧
      c6State.tmass = c6State.lmass + c6State.vmass ∧
      c6State.blowdown = Phase.liquid) ∧
    ((nextState (step trivEnv c6State)).map State.lmass).getD 0 < 0 := by
  constructor
  · refine ⟨by norm_num [c6State, baseState], by norm_num [c6State, baseState],
      by norm_num [c6State, baseState], rfl⟩
  · norm_num [step, blowdownUpd, liquidUpdate, combustionUpdate,
      manifoldPres, injPdrop, rdotCalc, mdotfuelCalc, area, nextState,
      trivEnv, trivThermo, baseState, c6State, VOL_TANK, NUM_INJ, dt,
      DIA_PORT, DIA_FUEL, DIA_THROAT, REG_COEFF, REG_EXP, DENSITY_FUEL,
      LENGTH_PORT, C_STAR_EFFICIENCY, NOZZLE_EFFICIENCY, NOZZLE_AREA_RAT,
      PRES_EXTERNAL, DIA_INJ, portDNew, fuelMassNew, cStarNew, presChamNew,
      gammaNew, presExitNew, thrustNew, momentumTerm, pdiffTerm, combPost,
      combRecord, Option.map]

/-- C7: a tick whose oxidizer mass flux exceeds the 600 threshold does not
terminate the run on that account — the source's line 262 `break` is
commented out — so if the tick passes the flow-reversal and burnout
checks, its record is appended regardless of the flux. -/
theorem C7_flux_nonfatal (e : Env) (s : State)
    (hrev : ¬(injPdrop e s < 0.15 ∧ 1 / 2 < s.time + dt))
    (hside : fluxTickCheck e s = true) :
    (nextRecord (step e s)).isSome = true := by
  unfold fluxTickCheck at hside
  rcases hb : blowdownUpd e s with _ | s1
  · rw [hb] at hside
    cases hside
  · simp only [hb, Bool.and_eq_true, decide_eq_true_eq] at hside
    have hport : ¬DIA_FUEL < portDNew e s1 := hside.2
    rw [step_eq_of_not_rev e s hrev]
    simp only [hb]
    rcases hcu : combustionUpdate e { s1 with time := s.time + dt }
        (manifoldPres e s) with _ | p
    · unfold combustionUpdate at hcu
      rw [portDNew_time, if_neg hport] at hcu
      cases hcu
    · obtain ⟨s2, r⟩ := p
      simp only [hcu]
      rfl

/-- Witness for C7: a concrete tick with oxidizer mass flux above 9000
(threshold 600) still appends its record. -/
theorem C7_witness : (nextRecord (step flowEnv c3State)).isSome = true :=
  C7_flux_nonfatal flowEnv c3State
    (by norm_num [injPdrop, manifoldPres, flowEnv, trivEnv, trivThermo,
      baseState, c3State, dt])
    (by norm_num [fluxTickCheck, blowdownUpd, liquidUpdate, flowEnv,
      trivEnv, trivThermo, baseState, c3State, VOL_TANK, NUM_INJ, dt,
      portDNew, rdotCalc, area, DIA_PORT, DIA_FUEL, REG_COEFF, REG_EXP,
      DIA_INJ, injPdrop, manifoldPres])

/-- C8: whenever the previous tick's oxidizer mass flow is zero (or
negative) or the liquid mass is exhausted, the feed-loss computation is
skipped and the manifold pressure equals the tank vapour pressure exactly;
the initial state has zero mass flow (so this covers the first tick), and
completed ticks preserve "vapour phase implies zero liquid mass" (so it
covers every vapour-blowdown tick). -/
theorem C8_no_flow_manifold (e : Env) (s : State) :
    (s.mdotox ≤ 0 ∨ s.lmass ≤ 0 → manifoldPres e s = s.vap_pres) ∧
    (∀ d0, (initState e d0).mdotox = 0) ∧
    ((s.blowdown = Phase.vapour → s.lmass = 0) →
      match step e s with
      | StepResult.next s2 _ => s2.blowdown = Phase.vapour → s2.lmass = 0
      | StepResult.halt _ => True) := by
  refine ⟨?_, fun d0 => rfl, ?_⟩
  · intro h
    unfold manifoldPres
    rw [if_neg]
    rintro ⟨h1, h2⟩
    rcases h with h | h <;> linarith
  · intro hinv
    by_cases hrev : injPdrop e s < 0.15 ∧ 1 / 2 < s.time + dt
    · rw [step_eq_of_rev e s hrev]
      trivial
    · rw [step_eq_of_not_rev e s hrev]
      rcases hb : blowdownUpd e s with _ | s1
      · simp [hb]
      · simp only [hb]
        rcases hcu : combustionUpdate e { s1 with time := s.time + dt }
            (manifoldPres e s) with _ | p
        · simp [hcu]
        · obtain ⟨s2, r⟩ := p
          simp only [hcu]
          unfold combustionUpdate at hcu
          by_cases hbo : DIA_FUEL < portDNew e { s1 with time := s.time + dt }
          · rw [if_pos hbo] at hcu
            cases hcu
          · rw [if_neg hbo] at hcu
            have h2 := Option.some.inj hcu
            cases h2
            exact @blowdown_vapour_lmass e s s1 hb hinv

/-- Witness for C8: the first tick's manifold pressure equals the tank
vapour pressure since the initial mass flow is zero. -/
theorem C8_witness : manifoldPres trivEnv baseState = baseState.vap_pres :=
  (C8_no_flow_manifold trivEnv baseState).1 (Or.inl (by norm_num [baseState]))

/-- C9 (amended): the chamber pressure starts at the external pressure
101325 Pa and that value feeds the first tick's lookups, but the record
appended on the first tick holds the already-updated chamber pressure of
line 283 (the update precedes the append of line 308), so the first
record's chamber pressure is the tick-1 fixed-point value, not 101325. -/
theorem C9_first_record (e : Env) (d0 : ℚ) :
    (initState e d0).pres_cham = PRES_EXTERNAL ∧ PRES_EXTERNAL = 101325 ∧
    match blowdownUpd e (initState e d0), step e (initState e d0) with
    | some s1, StepResult.next _ r =>
        r.pres_cham = (s1.mdotox + mdotfuelCalc e s1) *
            (e.c_star_lookup s1.pres_cham (s1.mdotox / mdotfuelCalc e s1) *
              C_STAR_EFFICIENCY) / area e.pi DIA_THROAT ∧
        s1.pres_cham = 101325
    | _, _ => True := by
  refine ⟨rfl, rfl, ?_⟩
  by_cases hrev : injPdrop e (initState e d0) < 0.15 ∧
      1 / 2 < (initState e d0).time + dt
  · rw [step_eq_of_rev e _ hrev]
    rcases hb : blowdownUpd e (initState e d0) with _ | s1 <;> simp [hb]
  · rw [step_eq_of_not_rev e _ hrev]
    rcases hb : blowdownUpd e (initState e d0) with _ | s1
    · simp [hb]
    · simp only [hb]
      rcases hcu : combustionUpdate e
          { s1 with time := (initState e d0).time + dt }
          (manifoldPres e (initState e d0)) with _ | p
      · simp [hcu]
      · obtain ⟨s2, r⟩ := p
        simp only [hcu]
        unfold combustionUpdate at hcu
        by_cases hbo : DIA_FUEL <
            portDNew e { s1 with time := (initState e d0).time + dt }
        · rw [if_pos hbo] at hcu
          cases hcu
        · rw [if_neg hbo] at hcu
          have h2 := Option.some.inj hcu
          cases h2
          exact ⟨rfl, (blowdown_keeps e _ hb).1⟩

/-- C9 as stated is false: with a concrete environment for the missing
property functions, the documented scenario's first tick appends exactly
one record and its chamber pressure is the tick-1 updated value, which
differs from 101325 Pa. -/
theorem C9_counterexample :
    ((runAux trivEnv (initState trivEnv DIA_PORT) 1).map
        Record.pres_cham).head? ≠ some 101325 ∧
    (runAux trivEnv (initState trivEnv DIA_PORT) 1).length = 1 := by
  constructor <;>
    norm_num [runAux, step, blowdownUpd, liquidUpdate, combustionUpdate,
      manifoldPres, injPdrop, rdotCalc, mdotfuelCalc, area, initState,
      trivEnv, trivThermo, VOL_TANK, TEMP_INIT, NUM_INJ, dt, DIA_PORT,
      DIA_FUEL, DIA_THROAT, REG_COEFF, REG_EXP, HEAD_SPACE, DENSITY_FUEL,
      LENGTH_PORT, C_STAR_EFFICIENCY, NOZZLE_EFFICIENCY, NOZZLE_AREA_RAT,
      PRES_EXTERNAL, DIA_INJ, portDNew, fuelMassNew, cStarNew, presChamNew,
      gammaNew, presExitNew, thrustNew, momentumTerm, pdiffTerm, combPost,
      combRecord, Option.map]

/-- C10: a run configured with the fuel port diameter equal to the fuel
grain outer diameter exits through the grain-burnout check on the very
first tick's regression update, provided that tick's regression rate is
positive (the power-law correlation gives a positive rate whenever the
injector delivers flow); the exit happens before any record is appended,
so the run's record sequence is empty. -/
theorem C10_burnout_first_tick (e : Env)
    (hside : burnoutCheck e (initState e DIA_FUEL) = true) :
    stopReasonOf (step e (initState e DIA_FUEL)) =
      some StopReason.fuelDepleted ∧
    ∀ n, runAux e (initState e DIA_FUEL) n = [] := by
  have hrev : ¬(injPdrop e (initState e DIA_FUEL) < 0.15 ∧
      1 / 2 < (initState e DIA_FUEL).time + dt) := by
    rintro ⟨-, h2⟩
    have h0 : (initState e DIA_FUEL).time = 0 := rfl
    rw [h0] at h2
    norm_num [dt] at h2
  unfold burnoutCheck at hside
  rcases hb : blowdownUpd e (initState e DIA_FUEL) with _ | s1
  · rw [hb] at hside
    cases hside
  · simp only [hb, decide_eq_true_eq] at hside
    have hport : s1.port_d = DIA_FUEL := (blowdown_keeps e _ hb).2.1
    have hbo : DIA_FUEL <
        portDNew e { s1 with time := (initState e DIA_FUEL).time + dt } := by
      rw [portDNew_time]
      unfold portDNew
      rw [hport]
      have hpos : 0 < 2 * rdotCalc e s1 * dt :=
        mul_pos (mul_pos (by norm_num) hside) (by norm_num [dt])
      linarith
    have hcomb : combustionUpdate e
        { s1 with time := (initState e DIA_FUEL).time + dt }
        (manifoldPres e (initState e DIA_FUEL)) = none := by
      unfold combustionUpdate
      rw [if_pos hbo]
    have hs : step e (initState e DIA_FUEL) =
        StepResult.halt StopReason.fuelDepleted := by
      rw [step_eq_of_not_rev e _ hrev]
      simp only [hb, hcomb]
    refine ⟨by rw [hs]; rfl, fun n => ?_⟩
    cases n with
    | zero => rfl
    | succ m => simp only [runAux, hs]

/-- Witness for C10: concretely, with a flowing injector the
equal-diameters run halts on tick one with the burnout exit and produces
no records. -/
theorem C10_witness :
    stopReasonOf (step flowEnv (initState flowEnv DIA_FUEL)) =
      some StopReason.fuelDepleted ∧
    ∀ n, runAux flowEnv (initState flowEnv DIA_FUEL) n = [] :=
  C10_burnout_first_tick flowEnv
    (by norm_num [burnoutCheck, blowdownUpd, liquidUpdate, rdotCalc, area,
      flowEnv, trivEnv, trivThermo, initState, TEMP_INIT, VOL_TANK,
      HEAD_SPACE, NUM_INJ, dt, DIA_FUEL, REG_COEFF, REG_EXP, DIA_INJ,
      injPdrop, manifoldPres, PRES_EXTERNAL, LENGTH_PORT, DENSITY_FUEL,
      DIA_PORT])

end MotorSim
